import Mathlib

/-!
Shallow embedding of the clock-domain control logic of
`sound/soc/bcm/rpi-cirrus.c` (ASoC machine driver for the Cirrus Logic
audio card, WM5102 primary codec + WM8804 SPDIF transceiver).

Hardware register/PLL/clock calls are opaque, independently failing
operations.  An `Oracle` assigns to the n-th hardware call issued within
one entry point its integer return code (0 = success, nonzero = error).
Every modelled function records the list of hardware calls it issued, the
integer it returns, and the updated driver state `Priv` (the C struct
`rpi_cirrus_priv`; the mutex, the dev pointers and the iec958 cache are
not needed by the verified properties and are omitted; the DAPM device
filter of the bias callbacks is modelled by a `sameDev` flag).
-/

namespace RpiCirrus

/-- C macro WM8804_CLKOUT_HZ. -/
def WM8804_CLKOUT_HZ : Nat := 12000000

/-- C macro RPI_CIRRUS_DEFAULT_RATE. -/
def RPI_CIRRUS_DEFAULT_RATE : Nat := 44100

/-- C macro WM5102_MAX_SYSCLK_1, "max sysclk for 4K family". -/
def WM5102_MAX_SYSCLK_1 : Nat := 49152000

/-- C macro WM5102_MAX_SYSCLK_2, "max sysclk for 11.025K family". -/
def WM5102_MAX_SYSCLK_2 : Nat := 45158400

/-- C function `calc_sysclk`:
`return (rate % 4000) ? WM5102_MAX_SYSCLK_2 : WM5102_MAX_SYSCLK_1;` -/
def calc_sysclk (rate : Nat) : Nat :=
  if rate % 4000 ≠ 0 then WM5102_MAX_SYSCLK_2 else WM5102_MAX_SYSCLK_1

/-- `ARRAY_SIZE(min_rates)`: the enumeration is off / 32kHz / 44.1kHz. -/
def NUM_MIN_RATES : Nat := 3

/-- `ARRAY_SIZE(max_rates)`: the enumeration is off / 48kHz / 96kHz. -/
def NUM_MAX_RATES : Nat := 3

/-- All-ones mask of a C `unsigned int` (32 bits), used to model `~`. -/
def UINT_MASK : Nat := 2 ^ 32 - 1

/-- FLL identifiers passed to `snd_soc_component_set_pll` on the WM5102
(header constants WM5102_FLL1 / WM5102_FLL1_REFCLK, kept abstract). -/
inductive FllId where
  | fll1
  | fll1_refclk
deriving DecidableEq

/-- Clock-source identifiers of the WM5102 (header constants
ARIZONA_FLL_SRC_NONE / ARIZONA_CLK_SRC_MCLK1 / ARIZONA_CLK_SRC_AIF2BCLK /
ARIZONA_CLK_SRC_FLL1, kept abstract). -/
inductive ClkSrc where
  | srcNone
  | mclk1
  | aif2bclk
  | fll1Src
deriving DecidableEq

/-- WM8804 sysclk source selector (header constant WM8804_TX_CLKSRC_PLL). -/
inductive Wm8804ClkSrc where
  | txClksrcPll
deriving DecidableEq

/-- One hardware call issued to one of the two codecs or the CPU DAI.
Arguments that are the same literal constant at every call site of the
modelled code are folded into the constructor choice:
`componentSetSysclk` is always `ARIZONA_CLK_SYSCLK`/`SND_SOC_CLOCK_IN`,
`wm8804SetPll` is always `snd_soc_dai_set_pll(dai, 0, 0, ..)`. -/
inductive HwCall where
  | componentSetPll (id : FllId) (src : ClkSrc) (freqIn freqOut : Nat)
  | componentSetSysclk (src : ClkSrc) (freq : Nat)
  | wm8804SetPll (freqIn freqOut : Nat)
  | wm8804SetSysclk (src : Wm8804ClkSrc) (freq : Nat)
  | setBclkRatio (ratio : Nat)
  | setTdmSlot (txMask rxMask slots width : Nat)
deriving DecidableEq

/-- Return code of the n-th hardware call issued within one entry point
(0 = success, nonzero = the error code). -/
abbrev Oracle := Nat → Int

/-- Result of a helper that only talks to hardware: the C return value
and the list of hardware calls issued. -/
structure HwRes where
  ret : Int
  calls : List HwCall
deriving DecidableEq

/-- The fields of `struct rpi_cirrus_priv` the control logic reads or
writes: last negotiated rate, SPDIF-RX sync-path flag, signed FLL1
frequency (negative = externally referenced), per-direction
params-applied bitmask, and the two rate-limit control indices. -/
structure Priv where
  card_rate : Nat
  sync_path_enable : Bool
  fll1_freq : Int
  params_set : Nat
  min_rate_idx : Nat
  max_rate_idx : Nat
deriving DecidableEq

/-- Result of an entry point: updated state, C return value, calls. -/
structure EvRes where
  priv : Priv
  ret : Int
  calls : List HwCall
deriving DecidableEq

/-- C function `rpi_cirrus_clear_flls`: disable FLL1, then always also
disable FLL1_REFCLK, then report the first nonzero result. -/
def rpi_cirrus_clear_flls (o : Oracle) (k : Nat) : HwRes :=
  let ret1 := o k
  let ret2 := o (k + 1)
  { ret := if ret1 ≠ 0 then ret1 else if ret2 ≠ 0 then ret2 else 0,
    calls := [HwCall.componentSetPll FllId.fll1 ClkSrc.srcNone 0 0,
              HwCall.componentSetPll FllId.fll1_refclk ClkSrc.srcNone 0 0] }

/-- C function `rpi_cirrus_set_fll`: FLL1 from MCLK1 at `clk_freq`
(the trailing `usleep_range` has no effect on state). -/
def rpi_cirrus_set_fll (o : Oracle) (k : Nat) (clk_freq : Nat) : HwRes :=
  { ret := o k,
    calls := [HwCall.componentSetPll FllId.fll1 ClkSrc.mclk1
                WM8804_CLKOUT_HZ clk_freq] }

/-- C function `rpi_cirrus_set_fll_refclk`: FLL1_REFCLK from MCLK1 at
`clk_freq`; only if that succeeded, FLL1 from AIF2BCLK with input
`aif2_freq` and output `clk_freq`. -/
def rpi_cirrus_set_fll_refclk (o : Oracle) (k : Nat)
    (clk_freq aif2_freq : Nat) : HwRes :=
  let ret := o k
  if ret ≠ 0 then
    { ret := ret,
      calls := [HwCall.componentSetPll FllId.fll1_refclk ClkSrc.mclk1
                  WM8804_CLKOUT_HZ clk_freq] }
  else
    { ret := o (k + 1),
      calls := [HwCall.componentSetPll FllId.fll1_refclk ClkSrc.mclk1
                  WM8804_CLKOUT_HZ clk_freq,
                HwCall.componentSetPll FllId.fll1 ClkSrc.aif2bclk
                  aif2_freq clk_freq] }

/-- C function `rpi_cirrus_set_wm8804_pll`: WM8804 PLL to 256fs, then
only on success MCLK as PLL output. -/
def rpi_cirrus_set_wm8804_pll (o : Oracle) (k : Nat) (rate : Nat) : HwRes :=
  let clk_freq := rate * 256
  let ret := o k
  if ret ≠ 0 then
    { ret := ret, calls := [HwCall.wm8804SetPll WM8804_CLKOUT_HZ clk_freq] }
  else
    { ret := o (k + 1),
      calls := [HwCall.wm8804SetPll WM8804_CLKOUT_HZ clk_freq,
                HwCall.wm8804SetSysclk Wm8804ClkSrc.txClksrcPll clk_freq] }

/-- DAPM event delivered to the dummy SPDIFRX widget handler. -/
inductive DapmEvent where
  | postPmu
  | postPmd
  | other
deriving DecidableEq

/-- C function `rpi_cirrus_spdif_rx_enable_event`.  POST_PMU: clear both
FLLs, re-target FLL1 at the recovered AIF2 bit clock, and only on full
success store the negated frequency and raise `sync_path_enable`.
POST_PMD: drop `sync_path_enable` only. -/
def rpi_cirrus_spdif_rx_enable_event (p : Priv) (o : Oracle)
    (event : DapmEvent) : EvRes :=
  match event with
  | DapmEvent.postPmu =>
    let clk_freq := calc_sysclk p.card_rate
    let aif2_freq := 64 * p.card_rate
    let c := rpi_cirrus_clear_flls o 0
    if c.ret ≠ 0 then
      { priv := p, ret := c.ret, calls := c.calls }
    else
      let f := rpi_cirrus_set_fll_refclk o c.calls.length clk_freq aif2_freq
      if f.ret ≠ 0 then
        { priv := p, ret := f.ret, calls := c.calls ++ f.calls }
      else
        { priv := { p with fll1_freq := -(clk_freq : Int),
                           sync_path_enable := true },
          ret := 0, calls := c.calls ++ f.calls }
  | DapmEvent.postPmd =>
    { priv := { p with sync_path_enable := false }, ret := 0, calls := [] }
  | DapmEvent.other =>
    { priv := p, ret := 0, calls := [] }

/-- Bias levels of the ASoC power framework. -/
inductive BiasLevel where
  | off
  | standby
  | prepare
  | biasOn
deriving DecidableEq

/-- C function `rpi_cirrus_set_bias_level`.  `sameDev` models the
`dapm->dev != wm5102 dev` early return; `prevLevel` is `dapm->bias_level`.
On PREPARE (unless the domain is already fully on, or the sync path is
enabled) the local FLL is set unconditionally and `fll1_freq` is updated
on success. -/
def rpi_cirrus_set_bias_level (p : Priv) (o : Oracle) (sameDev : Bool)
    (level prevLevel : BiasLevel) : EvRes :=
  if !sameDev then { priv := p, ret := 0, calls := [] } else
  match level with
  | BiasLevel.prepare =>
    if prevLevel = BiasLevel.biasOn then { priv := p, ret := 0, calls := [] }
    else if p.sync_path_enable then { priv := p, ret := 0, calls := [] }
    else
      let clk_freq := calc_sysclk p.card_rate
      let f := rpi_cirrus_set_fll o 0 clk_freq
      if f.ret ≠ 0 then { priv := p, ret := f.ret, calls := f.calls }
      else { priv := { p with fll1_freq := (clk_freq : Int) },
             ret := 0, calls := f.calls }
  | _ => { priv := p, ret := 0, calls := [] }

/-- C function `rpi_cirrus_set_bias_level_post`.  On STANDBY both FLLs
are cleared; `fll1_freq` becomes 0 only if the clear fully succeeded.
The function always returns 0. -/
def rpi_cirrus_set_bias_level_post (p : Priv) (o : Oracle) (sameDev : Bool)
    (level : BiasLevel) : EvRes :=
  if !sameDev then { priv := p, ret := 0, calls := [] } else
  match level with
  | BiasLevel.standby =>
    let c := rpi_cirrus_clear_flls o 0
    if c.ret ≠ 0 then { priv := p, ret := 0, calls := c.calls }
    else { priv := { p with fll1_freq := 0 }, ret := 0, calls := c.calls }
  | _ => { priv := p, ret := 0, calls := [] }

/-- C function `rpi_cirrus_hw_params`.  `stream` is
`substream->stream` (0 = playback, 1 = capture).  Note that when the
FLL clear/re-enable block fails the C variable `ret` still holds the 0
of the preceding successful set_sysclk call, so the function returns 0
on those paths.  (The assignments to `rpi_cirrus_dai_link2_params` are
framework glue without influence on `Priv` and are not modelled.) -/
def rpi_cirrus_hw_params (p : Priv) (o : Oracle) (stream : Fin 2)
    (rate width : Nat) : EvRes :=
  let clk_freq := calc_sysclk rate
  let ret1 := o 0
  let calls1 := [HwCall.setBclkRatio (2 * width)]
  if ret1 ≠ 0 then { priv := p, ret := ret1, calls := calls1 } else
  let ret2 := o 1
  let calls2 := calls1 ++ [HwCall.setTdmSlot 3 3 2 width]
  if ret2 ≠ 0 then { priv := p, ret := ret2, calls := calls2 } else
  -- WM8804 supports sample rates from 32k only
  let wm := if 32000 ≤ rate then rpi_cirrus_set_wm8804_pll o 2 rate
            else { ret := 0, calls := [] }
  if wm.ret ≠ 0 then { priv := p, ret := wm.ret, calls := calls2 ++ wm.calls }
  else
  let k := 2 + wm.calls.length
  let ret3 := o k
  let calls3 := calls2 ++ wm.calls ++
    [HwCall.componentSetSysclk ClkSrc.fll1Src clk_freq]
  if ret3 ≠ 0 then { priv := p, ret := ret3, calls := calls3 } else
  if 0 < p.fll1_freq ∧ p.fll1_freq ≠ (clk_freq : Int) then
    let c := rpi_cirrus_clear_flls o (k + 1)
    if c.ret ≠ 0 then { priv := p, ret := 0, calls := calls3 ++ c.calls } else
    let f := rpi_cirrus_set_fll o (k + 3) clk_freq
    if f.ret ≠ 0 then
      { priv := p, ret := 0, calls := calls3 ++ c.calls ++ f.calls }
    else
      { priv := { p with fll1_freq := (clk_freq : Int), card_rate := rate,
                         params_set := p.params_set ||| (1 <<< stream.val) },
        ret := 0, calls := calls3 ++ c.calls ++ f.calls }
  else
    { priv := { p with card_rate := rate,
                       params_set := p.params_set ||| (1 <<< stream.val) },
      ret := 0, calls := calls3 }

/-- C function `rpi_cirrus_hw_free`: clear the substream's direction bit;
if the mask just became empty, set SYSCLK to zero (the result of that
call is only logged; the function always returns 0). -/
def rpi_cirrus_hw_free (p : Priv) (_o : Oracle) (stream : Fin 2) : EvRes :=
  let old_params_set := p.params_set
  let new_params_set := p.params_set &&& (UINT_MASK ^^^ (1 <<< stream.val))
  let p' := { p with params_set := new_params_set }
  if new_params_set = 0 ∧ old_params_set ≠ 0 then
    { priv := p', ret := 0,
      calls := [HwCall.componentSetSysclk ClkSrc.fll1Src 0] }
  else
    { priv := p', ret := 0, calls := [] }

/-- C function `rpi_cirrus_min_rate_put`: store the written item
verbatim, return 1 iff it differed from the stored index. -/
def rpi_cirrus_min_rate_put (p : Priv) (item : Nat) : Priv × Int :=
  if p.min_rate_idx ≠ item then ({ p with min_rate_idx := item }, 1)
  else (p, 0)

/-- C function `rpi_cirrus_max_rate_put`, same shape for the max index. -/
def rpi_cirrus_max_rate_put (p : Priv) (item : Nat) : Priv × Int :=
  if p.max_rate_idx ≠ item then ({ p with max_rate_idx := item }, 1)
  else (p, 0)

/-- The clamp `rpi_cirrus_min_rate_info` applies to the requested
enumeration item before resolving its name. -/
def rpi_cirrus_min_rate_info_item (item : Nat) : Nat :=
  if NUM_MIN_RATES ≤ item then NUM_MIN_RATES - 1 else item

/-- The clamp `rpi_cirrus_max_rate_info` applies to the requested
enumeration item before resolving its name. -/
def rpi_cirrus_max_rate_info_item (item : Nat) : Nat :=
  if NUM_MAX_RATES ≤ item then NUM_MAX_RATES - 1 else item

/-- State after `rpi_cirrus_probe` (devm_kzalloc zeroes the struct, then
`min_rate_idx = 1` and `card_rate = RPI_CIRRUS_DEFAULT_RATE`). -/
def initialPriv : Priv :=
  { card_rate := RPI_CIRRUS_DEFAULT_RATE,
    sync_path_enable := false,
    fll1_freq := 0,
    params_set := 0,
    min_rate_idx := 1,
    max_rate_idx := 0 }

/-- The five entry points that mutate the clock-domain state. -/
inductive Event where
  | spdifRx (ev : DapmEvent)
  | bias (sameDev : Bool) (level prevLevel : BiasLevel)
  | biasPost (sameDev : Bool) (level : BiasLevel)
  | hwParams (stream : Fin 2) (rate width : Nat)
  | hwFree (stream : Fin 2)

/-- Dispatch one entry point. -/
def runEvent : Event → Oracle → Priv → EvRes
  | Event.spdifRx ev, o, p => rpi_cirrus_spdif_rx_enable_event p o ev
  | Event.bias d l pl, o, p => rpi_cirrus_set_bias_level p o d l pl
  | Event.biasPost d l, o, p => rpi_cirrus_set_bias_level_post p o d l
  | Event.hwParams s r w, o, p => rpi_cirrus_hw_params p o s r w
  | Event.hwFree s, o, p => rpi_cirrus_hw_free p o s

/-- States reachable from the probe-time state by any sequence of entry
points, with each hardware call succeeding or failing arbitrarily. -/
inductive Reachable : Priv → Prop where
  | init : Reachable initialPriv
  | step {p : Priv} (e : Event) (o : Oracle) :
      Reachable p → Reachable (runEvent e o p).priv

/-- The full state update `rpi_cirrus_hw_params` performs on its success
path: record the rate, mark the direction bit, and re-target `fll1_freq`
when the FLL re-lock branch was taken. -/
def hwParamsUpdate (p : Priv) (stream : Fin 2) (rate : Nat) : Priv :=
  { p with
    fll1_freq := if 0 < p.fll1_freq ∧ p.fll1_freq ≠ (calc_sysclk rate : Int)
                 then (calc_sysclk rate : Int) else p.fll1_freq,
    card_rate := rate,
    params_set := p.params_set ||| (1 <<< stream.val) }

/-- Number of hardware calls `rpi_cirrus_hw_params` issues before the
FLL clear/re-enable block: bclk ratio, tdm slot, the WM8804 PLL pair
when rate ≥ 32000, and the sysclk call.  The C `ret` variable is
assigned from exactly these calls, so only their failures are returned. -/
def hwParamsPreLen (rate : Nat) : Nat := if 32000 ≤ rate then 5 else 3

/-- `rpi_cirrus_hw_params` either leaves `Priv` untouched, or performs
exactly the full success update, the latter only when every hardware call
it issued succeeded. -/
theorem hw_params_spec (p : Priv) (o : Oracle) (s : Fin 2) (rate width : Nat) :
    (rpi_cirrus_hw_params p o s rate width).priv = p ∨
    ((rpi_cirrus_hw_params p o s rate width).priv = hwParamsUpdate p s rate ∧
     (rpi_cirrus_hw_params p o s rate width).ret = 0 ∧
     ∀ i, i < (rpi_cirrus_hw_params p o s rate width).calls.length → o i = 0) := by
  by_cases h0 : o 0 = 0
  case neg => left; simp [rpi_cirrus_hw_params, h0]
  by_cases h1 : o 1 = 0
  case neg => left; simp [rpi_cirrus_hw_params, h0, h1]
  by_cases hr : 32000 ≤ rate
  · -- WM8804 branch: calls 2,3 are the wm8804 pair, sysclk at 4
    by_cases h2 : o 2 = 0
    case neg =>
      left; simp [rpi_cirrus_hw_params, rpi_cirrus_set_wm8804_pll, h0, h1, hr, h2]
    by_cases h3 : o 3 = 0
    case neg =>
      left; simp [rpi_cirrus_hw_params, rpi_cirrus_set_wm8804_pll, h0, h1, hr, h2, h3]
    by_cases h4 : o 4 = 0
    case neg =>
      left; simp [rpi_cirrus_hw_params, rpi_cirrus_set_wm8804_pll, h0, h1, hr, h2, h3, h4]
    by_cases hg : 0 < p.fll1_freq ∧ p.fll1_freq ≠ (calc_sysclk rate : Int)
    · by_cases h5 : o 5 = 0
      case neg =>
        left
        simp [rpi_cirrus_hw_params, rpi_cirrus_set_wm8804_pll, rpi_cirrus_clear_flls,
          h0, h1, hr, h2, h3, h4, hg, h5]
      by_cases h6 : o 6 = 0
      case neg =>
        left
        simp [rpi_cirrus_hw_params, rpi_cirrus_set_wm8804_pll, rpi_cirrus_clear_flls,
          h0, h1, hr, h2, h3, h4, hg, h5, h6]
      by_cases h7 : o 7 = 0
      case neg =>
        left
        simp [rpi_cirrus_hw_params, rpi_cirrus_set_wm8804_pll, rpi_cirrus_clear_flls,
          rpi_cirrus_set_fll, h0, h1, hr, h2, h3, h4, hg, h5, h6, h7]
      right
      refine ⟨?_, ?_, ?_⟩ <;>
        simp only [rpi_cirrus_hw_params, rpi_cirrus_set_wm8804_pll, rpi_cirrus_clear_flls,
          rpi_cirrus_set_fll, hwParamsUpdate, h0, h1, hr, h2, h3, h4, hg, h5, h6, h7,
          if_pos, if_neg, ite_true, ite_false, ne_eq, not_true, not_false_iff,
          List.length_append, List.length_cons, List.length_nil]
      · simp [hg]
      · simp
      · simp
        intro i hi
        interval_cases i <;> assumption
    · right
      refine ⟨?_, ?_, ?_⟩ <;>
        simp [rpi_cirrus_hw_params, rpi_cirrus_set_wm8804_pll, hwParamsUpdate,
          h0, h1, hr, h2, h3, h4, hg]
      intro i hi
      interval_cases i <;> assumption
  · -- no WM8804 call: sysclk at 2, clear at 3/4, fll at 5
    by_cases h2 : o 2 = 0
    case neg => left; simp [rpi_cirrus_hw_params, h0, h1, hr, h2]
    by_cases hg : 0 < p.fll1_freq ∧ p.fll1_freq ≠ (calc_sysclk rate : Int)
    · by_cases h3 : o 3 = 0
      case neg =>
        left; simp [rpi_cirrus_hw_params, rpi_cirrus_clear_flls, h0, h1, hr, h2, hg, h3]
      by_cases h4 : o 4 = 0
      case neg =>
        left; simp [rpi_cirrus_hw_params, rpi_cirrus_clear_flls, h0, h1, hr, h2, hg, h3, h4]
      by_cases h5 : o 5 = 0
      case neg =>
        left
        simp [rpi_cirrus_hw_params, rpi_cirrus_clear_flls, rpi_cirrus_set_fll,
          h0, h1, hr, h2, hg, h3, h4, h5]
      right
      refine ⟨?_, ?_, ?_⟩ <;>
        simp [rpi_cirrus_hw_params, rpi_cirrus_clear_flls, rpi_cirrus_set_fll,
          hwParamsUpdate, h0, h1, hr, h2, hg, h3, h4, h5]
      intro i hi
      interval_cases i <;> assumption
    · right
      refine ⟨?_, ?_, ?_⟩ <;>
        simp [rpi_cirrus_hw_params, hwParamsUpdate, h0, h1, hr, h2, hg]
      intro i hi
      interval_cases i <;> assumption

/-- The SPDIF-RX power-up handler either fails (reporting the error and
leaving the state untouched) or performs the clear / prime-REFCLK /
sync-FLL1 sequence with every call succeeding and stores the negated
frequency with the sync flag raised. -/
theorem spdif_pmu_spec (p : Priv) (o : Oracle) :
    ((rpi_cirrus_spdif_rx_enable_event p o DapmEvent.postPmu).priv = p ∧
     (rpi_cirrus_spdif_rx_enable_event p o DapmEvent.postPmu).ret ≠ 0) ∨
    ((rpi_cirrus_spdif_rx_enable_event p o DapmEvent.postPmu).priv =
       { p with fll1_freq := -(calc_sysclk p.card_rate : Int),
                sync_path_enable := true } ∧
     (rpi_cirrus_spdif_rx_enable_event p o DapmEvent.postPmu).ret = 0 ∧
     (rpi_cirrus_spdif_rx_enable_event p o DapmEvent.postPmu).calls =
       [HwCall.componentSetPll FllId.fll1 ClkSrc.srcNone 0 0,
        HwCall.componentSetPll FllId.fll1_refclk ClkSrc.srcNone 0 0,
        HwCall.componentSetPll FllId.fll1_refclk ClkSrc.mclk1 WM8804_CLKOUT_HZ
          (calc_sysclk p.card_rate),
        HwCall.componentSetPll FllId.fll1 ClkSrc.aif2bclk (64 * p.card_rate)
          (calc_sysclk p.card_rate)] ∧
     ∀ i, i < (rpi_cirrus_spdif_rx_enable_event p o DapmEvent.postPmu).calls.length →
       o i = 0) := by
  by_cases h0 : o 0 = 0
  case neg =>
    left
    simp [rpi_cirrus_spdif_rx_enable_event, rpi_cirrus_clear_flls, h0]
  by_cases h1 : o 1 = 0
  case neg =>
    left
    simp [rpi_cirrus_spdif_rx_enable_event, rpi_cirrus_clear_flls, h0, h1]
  by_cases h2 : o 2 = 0
  case neg =>
    left
    simp [rpi_cirrus_spdif_rx_enable_event, rpi_cirrus_clear_flls,
      rpi_cirrus_set_fll_refclk, h0, h1, h2]
  by_cases h3 : o 3 = 0
  case neg =>
    left
    simp [rpi_cirrus_spdif_rx_enable_event, rpi_cirrus_clear_flls,
      rpi_cirrus_set_fll_refclk, h0, h1, h2, h3]
  right
  refine ⟨?_, ?_, ?_, ?_⟩ <;>
    simp [rpi_cirrus_spdif_rx_enable_event, rpi_cirrus_clear_flls,
      rpi_cirrus_set_fll_refclk, h0, h1, h2, h3]
  intro i hi
  interval_cases i <;> assumption

/-- One step of any entry point preserves the sign invariant relating
`sync_path_enable` and `fll1_freq`. -/
theorem clockInv_step (p : Priv) (e : Event) (o : Oracle)
    (h : p.sync_path_enable = true → p.fll1_freq ≤ 0) :
    (runEvent e o p).priv.sync_path_enable = true →
      (runEvent e o p).priv.fll1_freq ≤ 0 := by
  cases e with
  | spdifRx ev =>
    cases ev with
    | postPmu =>
      rcases spdif_pmu_spec p o with ⟨hp, -⟩ | ⟨hp, -, -, -⟩
      · simpa [runEvent, hp] using h
      · intro _
        simp only [runEvent, hp]
        omega
    | postPmd =>
      simp [runEvent, rpi_cirrus_spdif_rx_enable_event]
    | other =>
      simpa [runEvent, rpi_cirrus_spdif_rx_enable_event] using h
  | bias d l pl =>
    cases d with
    | false => simpa [runEvent, rpi_cirrus_set_bias_level] using h
    | true =>
      cases l with
      | off => simpa [runEvent, rpi_cirrus_set_bias_level] using h
      | standby => simpa [runEvent, rpi_cirrus_set_bias_level] using h
      | biasOn => simpa [runEvent, rpi_cirrus_set_bias_level] using h
      | prepare =>
        by_cases hpl : pl = BiasLevel.biasOn
        · simpa [runEvent, rpi_cirrus_set_bias_level, hpl] using h
        · by_cases hs : p.sync_path_enable
          · simpa [runEvent, rpi_cirrus_set_bias_level, hpl, hs] using h
          · by_cases h0 : o 0 = 0
            · intro hcontra
              simp [runEvent, rpi_cirrus_set_bias_level, rpi_cirrus_set_fll,
                hpl, hs, h0] at hcontra
            · intro hcontra
              simp [runEvent, rpi_cirrus_set_bias_level, rpi_cirrus_set_fll,
                hpl, hs, h0] at hcontra
  | biasPost d l =>
    cases d with
    | false => simpa [runEvent, rpi_cirrus_set_bias_level_post] using h
    | true =>
      cases l with
      | off => simpa [runEvent, rpi_cirrus_set_bias_level_post] using h
      | prepare => simpa [runEvent, rpi_cirrus_set_bias_level_post] using h
      | biasOn => simpa [runEvent, rpi_cirrus_set_bias_level_post] using h
      | standby =>
        by_cases hc : (rpi_cirrus_clear_flls o 0).ret = 0
        · intro _
          simp [runEvent, rpi_cirrus_set_bias_level_post, hc]
        · simpa [runEvent, rpi_cirrus_set_bias_level_post, hc] using h
  | hwParams s rate width =>
    rcases hw_params_spec p o s rate width with hp | ⟨hp, -, -⟩
    · simpa [runEvent, hp] using h
    · intro hsy
      simp only [runEvent, hp, hwParamsUpdate] at hsy ⊢
      have hf : p.fll1_freq ≤ 0 := h (by simpa using hsy)
      rw [if_neg]
      · exact hf
      · rintro ⟨hpos, -⟩
        omega
  | hwFree s =>
    by_cases hc : (p.params_set &&& (UINT_MASK ^^^ (1 <<< s.val))) = 0 ∧
        p.params_set ≠ 0
    · simpa [runEvent, rpi_cirrus_hw_free, hc] using h
    · simpa [runEvent, rpi_cirrus_hw_free, hc] using h

/-- C1: in every state reachable from the probe-time initial state
(card_rate 44100, fll1_freq 0, sync_path_enable off, params_set empty)
by any sequence of the five entry points with arbitrarily failing
hardware calls, an enabled sync path implies a non-positive stored FLL1
frequency. -/
theorem C1_sync_path_fll1_nonpos :
    ∀ p : Priv, Reachable p → p.sync_path_enable = true → p.fll1_freq ≤ 0 := by
  intro p hr
  induction hr with
  | init => intro _; norm_num [initialPriv]
  | step e o _ ih => exact clockInv_step _ e o ih

/-- Witness for C1: the state reached by one successful SPDIF-RX
power-up from the initial state has the sync path enabled, and the
theorem yields a non-positive frequency there. -/
theorem C1_witness :
    (runEvent (Event.spdifRx DapmEvent.postPmu) (fun _ => 0)
        initialPriv).priv.fll1_freq ≤ 0 :=
  C1_sync_path_fll1_nonpos _
    (Reachable.step (Event.spdifRx DapmEvent.postPmu) (fun _ => 0) Reachable.init)
    (by decide)

/-- C2 counterexample: 48000 is a multiple of 4000, yet `calc_sysclk`
returns the 4k/48 kHz family constant 49152000, not the claimed
11.025k/44.1 kHz family constant 45158400. -/
theorem C2_counterexample :
    48000 % 4000 = 0 ∧ calc_sysclk 48000 = 49152000 ∧
      calc_sysclk 48000 ≠ 45158400 := by decide

/-- C2 (amended): `calc_sysclk r` returns the 4k/48 kHz family constant
49152000 exactly when `r` is a multiple of 4000, and the 11.025k/44.1 kHz
family constant 45158400 otherwise. -/
theorem C2_family_selection (r : Nat) :
    (calc_sysclk r = WM5102_MAX_SYSCLK_1 ↔ r % 4000 = 0) ∧
    (calc_sysclk r = WM5102_MAX_SYSCLK_2 ↔ r % 4000 ≠ 0) := by
  unfold calc_sysclk WM5102_MAX_SYSCLK_1 WM5102_MAX_SYSCLK_2
  by_cases h : r % 4000 = 0 <;> simp [h]

/-- Witness for C2 at the two family representatives 44100 and 48000. -/
theorem C2_witness :
    ((calc_sysclk 48000 = WM5102_MAX_SYSCLK_1 ↔ 48000 % 4000 = 0) ∧
     (calc_sysclk 48000 = WM5102_MAX_SYSCLK_2 ↔ 48000 % 4000 ≠ 0)) ∧
    ((calc_sysclk 44100 = WM5102_MAX_SYSCLK_1 ↔ 44100 % 4000 = 0) ∧
     (calc_sysclk 44100 = WM5102_MAX_SYSCLK_2 ↔ 44100 % 4000 ≠ 0)) :=
  ⟨C2_family_selection 48000, C2_family_selection 44100⟩

/-- C3: on a fully successful `hw_params` run at rate `r`: the WM8804 PLL
is configured at 256×r exactly when r ≥ 32000; the WM5102 system clock is
set to track FLL1 at `calc_sysclk r`; `clear()` followed by
`enable_local(calc_sysclk r)` is appended exactly when at entry
`fll1_freq` is positive and differs from `calc_sysclk r`; and the state
records `card_rate = r` with the direction bit set.  In particular,
re-negotiating 48000 Hz after 44100 Hz while the local FLL runs at
45158400 issues `clear()` then `enable_local(49152000)`. -/
theorem C3_hw_params_success (p : Priv) (o : Oracle) (s : Fin 2)
    (rate width : Nat) (ho : ∀ n, o n = 0) :
    ((rpi_cirrus_hw_params p o s rate width).ret = 0 ∧
     (rpi_cirrus_hw_params p o s rate width).calls =
       [HwCall.setBclkRatio (2 * width), HwCall.setTdmSlot 3 3 2 width]
       ++ (if 32000 ≤ rate then
             [HwCall.wm8804SetPll WM8804_CLKOUT_HZ (rate * 256),
              HwCall.wm8804SetSysclk Wm8804ClkSrc.txClksrcPll (rate * 256)]
           else [])
       ++ [HwCall.componentSetSysclk ClkSrc.fll1Src (calc_sysclk rate)]
       ++ (if 0 < p.fll1_freq ∧ p.fll1_freq ≠ (calc_sysclk rate : Int) then
             [HwCall.componentSetPll FllId.fll1 ClkSrc.srcNone 0 0,
              HwCall.componentSetPll FllId.fll1_refclk ClkSrc.srcNone 0 0,
              HwCall.componentSetPll FllId.fll1 ClkSrc.mclk1 WM8804_CLKOUT_HZ
                (calc_sysclk rate)]
           else []) ∧
     (rpi_cirrus_hw_params p o s rate width).priv = hwParamsUpdate p s rate ∧
     (HwCall.wm8804SetPll WM8804_CLKOUT_HZ (rate * 256) ∈
        (rpi_cirrus_hw_params p o s rate width).calls ↔ 32000 ≤ rate)) ∧
    ((rpi_cirrus_hw_params
        ((rpi_cirrus_hw_params { initialPriv with fll1_freq := 45158400 }
          o 0 44100 24).priv) o 0 48000 24).calls =
       [HwCall.setBclkRatio 48, HwCall.setTdmSlot 3 3 2 24,
        HwCall.wm8804SetPll 12000000 12288000,
        HwCall.wm8804SetSysclk Wm8804ClkSrc.txClksrcPll 12288000,
        HwCall.componentSetSysclk ClkSrc.fll1Src 49152000,
        HwCall.componentSetPll FllId.fll1 ClkSrc.srcNone 0 0,
        HwCall.componentSetPll FllId.fll1_refclk ClkSrc.srcNone 0 0,
        HwCall.componentSetPll FllId.fll1 ClkSrc.mclk1 12000000 49152000] ∧
     (rpi_cirrus_hw_params
        ((rpi_cirrus_hw_params { initialPriv with fll1_freq := 45158400 }
          o 0 44100 24).priv) o 0 48000 24).priv.card_rate = 48000 ∧
     (rpi_cirrus_hw_params
        ((rpi_cirrus_hw_params { initialPriv with fll1_freq := 45158400 }
          o 0 44100 24).priv) o 0 48000 24).priv.fll1_freq = 49152000) := by
  constructor
  · refine ⟨?_, ?_, ?_, ?_⟩ <;>
      (by_cases hr : 32000 ≤ rate <;>
        by_cases hg : 0 < p.fll1_freq ∧ p.fll1_freq ≠ (calc_sysclk rate : Int) <;>
          simp [rpi_cirrus_hw_params, rpi_cirrus_set_wm8804_pll,
            rpi_cirrus_clear_flls, rpi_cirrus_set_fll, hwParamsUpdate,
            ho, hr, hg])
  · refine ⟨?_, ?_, ?_⟩ <;>
      simp [rpi_cirrus_hw_params, rpi_cirrus_set_wm8804_pll,
        rpi_cirrus_clear_flls, rpi_cirrus_set_fll, initialPriv, calc_sysclk,
        WM5102_MAX_SYSCLK_1, WM5102_MAX_SYSCLK_2, WM8804_CLKOUT_HZ, ho]

/-- Witness for C3: a fully successful run from the initial state at
44100 Hz returns 0. -/
theorem C3_witness :
    (rpi_cirrus_hw_params initialPriv (fun _ => 0) 0 44100 24).ret = 0 :=
  (C3_hw_params_success initialPriv (fun _ => 0) 0 44100 24 (fun _ => rfl)).1.1

/-- C4: `clear()` issues both disable sub-calls unconditionally (the
second attempted even when the first failed) and reports success exactly
when both succeed; on the standby-post transition, `fll1_freq` becomes 0
when both sub-calls succeed and is left unchanged otherwise. -/
theorem C4_clear_flls_best_effort (o : Oracle) (k : Nat) (p : Priv) :
    (rpi_cirrus_clear_flls o k).calls =
      [HwCall.componentSetPll FllId.fll1 ClkSrc.srcNone 0 0,
       HwCall.componentSetPll FllId.fll1_refclk ClkSrc.srcNone 0 0] ∧
    ((rpi_cirrus_clear_flls o k).ret = 0 ↔ (o k = 0 ∧ o (k + 1) = 0)) ∧
    ((o 0 = 0 ∧ o 1 = 0) →
      (rpi_cirrus_set_bias_level_post p o true BiasLevel.standby).priv =
        { p with fll1_freq := 0 }) ∧
    (¬(o 0 = 0 ∧ o 1 = 0) →
      (rpi_cirrus_set_bias_level_post p o true BiasLevel.standby).priv = p) := by
  refine ⟨rfl, ?_, ?_, ?_⟩
  · by_cases h1 : o k = 0 <;> by_cases h2 : o (k + 1) = 0 <;>
      simp [rpi_cirrus_clear_flls, h1, h2]
  · rintro ⟨h0, h1⟩
    simp [rpi_cirrus_set_bias_level_post, rpi_cirrus_clear_flls, h0, h1]
  · intro h
    by_cases h0 : o 0 = 0
    · by_cases h1 : o 1 = 0
      · exact absurd ⟨h0, h1⟩ h
      · simp [rpi_cirrus_set_bias_level_post, rpi_cirrus_clear_flls, h0, h1]
    · simp [rpi_cirrus_set_bias_level_post, rpi_cirrus_clear_flls, h0]

/-- Witness for C4: a fully successful standby-post clear from the
initial state sets `fll1_freq` to 0. -/
theorem C4_witness :
    (rpi_cirrus_set_bias_level_post initialPriv (fun _ => 0) true
        BiasLevel.standby).priv = { initialPriv with fll1_freq := 0 } :=
  (C4_clear_flls_best_effort (fun _ => 0) 0 initialPriv).2.2.1 ⟨rfl, rfl⟩

/-- C5: the routing power-up event performs `clear()`, primes FLL1_REFCLK
from the fixed master clock at output `calc_sysclk card_rate`, then sets
FLL1 from the recovered AIF2 bit clock with input 64×card_rate; only if
all four calls succeed does it store `fll1_freq = −calc_sysclk card_rate`
and raise `sync_path_enable`.  The power-down event lowers
`sync_path_enable` only, with no hardware calls and every other field
unchanged. -/
theorem C5_spdif_rx_events (p : Priv) (o : Oracle) :
    ((o 0 = 0 ∧ o 1 = 0 ∧ o 2 = 0 ∧ o 3 = 0) →
      (rpi_cirrus_spdif_rx_enable_event p o DapmEvent.postPmu).calls =
        [HwCall.componentSetPll FllId.fll1 ClkSrc.srcNone 0 0,
         HwCall.componentSetPll FllId.fll1_refclk ClkSrc.srcNone 0 0,
         HwCall.componentSetPll FllId.fll1_refclk ClkSrc.mclk1 WM8804_CLKOUT_HZ
           (calc_sysclk p.card_rate),
         HwCall.componentSetPll FllId.fll1 ClkSrc.aif2bclk (64 * p.card_rate)
           (calc_sysclk p.card_rate)] ∧
      (rpi_cirrus_spdif_rx_enable_event p o DapmEvent.postPmu).priv =
        { p with fll1_freq := -(calc_sysclk p.card_rate : Int),
                 sync_path_enable := true }) ∧
    (¬(o 0 = 0 ∧ o 1 = 0 ∧ o 2 = 0 ∧ o 3 = 0) →
      (rpi_cirrus_spdif_rx_enable_event p o DapmEvent.postPmu).priv = p) ∧
    ((rpi_cirrus_spdif_rx_enable_event p o DapmEvent.postPmd).priv =
       { p with sync_path_enable := false } ∧
     (rpi_cirrus_spdif_rx_enable_event p o DapmEvent.postPmd).calls = [] ∧
     (rpi_cirrus_spdif_rx_enable_event p o DapmEvent.postPmd).ret = 0) := by
  refine ⟨?_, ?_, ?_⟩
  · rintro ⟨h0, h1, h2, h3⟩
    constructor <;>
      simp [rpi_cirrus_spdif_rx_enable_event, rpi_cirrus_clear_flls,
        rpi_cirrus_set_fll_refclk, h0, h1, h2, h3]
  · intro h
    rcases spdif_pmu_spec p o with ⟨hp, -⟩ | ⟨-, -, hc, hall⟩
    · exact hp
    · exact absurd ⟨hall 0 (by simp [hc]), hall 1 (by simp [hc]),
        hall 2 (by simp [hc]), hall 3 (by simp [hc])⟩ h
  · refine ⟨?_, rfl, rfl⟩
    simp [rpi_cirrus_spdif_rx_enable_event]

/-- Witness for C5: a fully successful power-up from the initial state
stores −45158400 and raises the sync flag. -/
theorem C5_witness :
    (rpi_cirrus_spdif_rx_enable_event initialPriv (fun _ => 0)
        DapmEvent.postPmu).priv =
      { initialPriv with fll1_freq := -(calc_sysclk initialPriv.card_rate : Int),
                         sync_path_enable := true } :=
  ((C5_spdif_rx_events initialPriv (fun _ => 0)).1 ⟨rfl, rfl, rfl, rfl⟩).2

/-- C6: `hw_free` clears the calling substream's direction bit and issues
exactly one zero-frequency sysclk call precisely when that update takes
`params_set` from non-empty to empty; it never changes `fll1_freq`,
`card_rate` or `sync_path_enable`.  Consequently, after `hw_params` on
playback then capture, freeing playback issues no call and freeing the
remaining capture stream issues exactly one. -/
theorem C6_hw_free_refcount :
    (∀ (p : Priv) (o : Oracle) (s : Fin 2),
      (rpi_cirrus_hw_free p o s).priv.params_set =
        p.params_set &&& (UINT_MASK ^^^ (1 <<< s.val)) ∧
      (rpi_cirrus_hw_free p o s).priv.fll1_freq = p.fll1_freq ∧
      (rpi_cirrus_hw_free p o s).priv.card_rate = p.card_rate ∧
      (rpi_cirrus_hw_free p o s).priv.sync_path_enable = p.sync_path_enable ∧
      (rpi_cirrus_hw_free p o s).ret = 0 ∧
      ((rpi_cirrus_hw_free p o s).calls =
          [HwCall.componentSetSysclk ClkSrc.fll1Src 0] ↔
        ((rpi_cirrus_hw_free p o s).priv.params_set = 0 ∧ p.params_set ≠ 0)) ∧
      ((rpi_cirrus_hw_free p o s).calls = [] ↔
        ¬((rpi_cirrus_hw_free p o s).priv.params_set = 0 ∧
          p.params_set ≠ 0))) ∧
    ((rpi_cirrus_hw_free
        ((rpi_cirrus_hw_params
           ((rpi_cirrus_hw_params initialPriv (fun _ => 0) 0 44100 24).priv)
           (fun _ => 0) 1 44100 24).priv) (fun _ => 0) 0).calls = [] ∧
     (rpi_cirrus_hw_free
        ((rpi_cirrus_hw_free
           ((rpi_cirrus_hw_params
              ((rpi_cirrus_hw_params initialPriv (fun _ => 0) 0 44100 24).priv)
              (fun _ => 0) 1 44100 24).priv) (fun _ => 0) 0).priv)
        (fun _ => 0) 1).calls =
       [HwCall.componentSetSysclk ClkSrc.fll1Src 0]) := by
  constructor
  · intro p o s
    by_cases hc : (p.params_set &&& (UINT_MASK ^^^ (1 <<< s.val))) = 0 ∧
        p.params_set ≠ 0 <;>
      simp [rpi_cirrus_hw_free, hc]
  · constructor <;> decide

/-- Witness for C6: freeing the only open stream from a one-bit mask
issues the single zero-frequency sysclk call. -/
theorem C6_witness :
    (rpi_cirrus_hw_free { initialPriv with params_set := 1 } (fun _ => 0)
        0).calls = [HwCall.componentSetSysclk ClkSrc.fll1Src 0] :=
  ((C6_hw_free_refcount.1 { initialPriv with params_set := 1 }
      (fun _ => 0) 0).2.2.2.2.2.1).mpr (by decide)

/-- C7 counterexample: with the local FLL already at the target
frequency (45158400 = calc_sysclk 44100), the prepare transition still
issues a hardware call, contradicting the claim that `enable_local` is
issued only if the current `fll1_freq` differs from the target. -/
theorem C7_counterexample :
    ({ initialPriv with fll1_freq := 45158400 } : Priv).fll1_freq =
      (calc_sysclk ({ initialPriv with fll1_freq := 45158400 } :
        Priv).card_rate : Int) ∧
    (rpi_cirrus_set_bias_level { initialPriv with fll1_freq := 45158400 }
        (fun _ => 0) true BiasLevel.prepare BiasLevel.standby).calls ≠ [] := by
  decide

/-- C7 (amended): on the primary codec's domain, prepare with the
previous level already fully on is a no-op, as is prepare while the sync
path is enabled; otherwise prepare always issues
`enable_local(calc_sysclk card_rate)` — even when `fll1_freq` already
equals that target — updating `fll1_freq` only on success. -/
theorem C7_prepare_unconditional (p : Priv) (o : Oracle) (prev : BiasLevel) :
    (rpi_cirrus_set_bias_level p o true BiasLevel.prepare BiasLevel.biasOn =
      { priv := p, ret := 0, calls := [] }) ∧
    (p.sync_path_enable = true →
      rpi_cirrus_set_bias_level p o true BiasLevel.prepare prev =
        { priv := p, ret := 0, calls := [] }) ∧
    (prev ≠ BiasLevel.biasOn → p.sync_path_enable = false →
      (rpi_cirrus_set_bias_level p o true BiasLevel.prepare prev).calls =
        [HwCall.componentSetPll FllId.fll1 ClkSrc.mclk1 WM8804_CLKOUT_HZ
          (calc_sysclk p.card_rate)] ∧
      (o 0 = 0 →
        (rpi_cirrus_set_bias_level p o true BiasLevel.prepare prev).priv =
          { p with fll1_freq := (calc_sysclk p.card_rate : Int) }) ∧
      (o 0 ≠ 0 →
        (rpi_cirrus_set_bias_level p o true BiasLevel.prepare prev).priv = p ∧
        (rpi_cirrus_set_bias_level p o true BiasLevel.prepare prev).ret =
          o 0)) := by
  refine ⟨?_, ?_, ?_⟩
  · simp [rpi_cirrus_set_bias_level]
  · intro hs
    by_cases hpl : prev = BiasLevel.biasOn <;>
      simp [rpi_cirrus_set_bias_level, hpl, hs]
  · intro hpl hs
    refine ⟨?_, ?_, ?_⟩
    · by_cases h0 : o 0 = 0 <;>
        simp [rpi_cirrus_set_bias_level, rpi_cirrus_set_fll, hpl, hs, h0]
    · intro h0
      simp [rpi_cirrus_set_bias_level, rpi_cirrus_set_fll, hpl, hs, h0]
    · intro h0
      simp [rpi_cirrus_set_bias_level, rpi_cirrus_set_fll, hpl, hs, h0]

/-- Witness for C7: prepare from standby in the initial state issues the
single local-FLL call. -/
theorem C7_witness :
    (rpi_cirrus_set_bias_level initialPriv (fun _ => 0) true BiasLevel.prepare
        BiasLevel.standby).calls =
      [HwCall.componentSetPll FllId.fll1 ClkSrc.mclk1 WM8804_CLKOUT_HZ
        (calc_sysclk initialPriv.card_rate)] :=
  ((C7_prepare_unconditional initialPriv (fun _ => 0) BiasLevel.standby).2.2
    (by decide) rfl).1

/-- C8 counterexample: stale local FLL at 45158400, re-negotiation at
48000 Hz, where `clear()` succeeds (hardware calls 5 and 6) but the
subsequent `enable_local` (call 7) fails: the stored `fll1_freq` keeps
its stale pre-transition value 45158400 instead of being treated as OFF
(0). -/
theorem C8_counterexample :
    (((fun n => if n = 7 then 1 else 0) : Oracle) 5 = 0 ∧
     ((fun n => if n = 7 then 1 else 0) : Oracle) 6 = 0 ∧
     ((fun n => if n = 7 then 1 else 0) : Oracle) 7 ≠ 0) ∧
    (rpi_cirrus_hw_params { initialPriv with fll1_freq := 45158400 }
        (fun n => if n = 7 then 1 else 0) 0 48000 24).calls =
      [HwCall.setBclkRatio 48, HwCall.setTdmSlot 3 3 2 24,
       HwCall.wm8804SetPll 12000000 12288000,
       HwCall.wm8804SetSysclk Wm8804ClkSrc.txClksrcPll 12288000,
       HwCall.componentSetSysclk ClkSrc.fll1Src 49152000,
       HwCall.componentSetPll FllId.fll1 ClkSrc.srcNone 0 0,
       HwCall.componentSetPll FllId.fll1_refclk ClkSrc.srcNone 0 0,
       HwCall.componentSetPll FllId.fll1 ClkSrc.mclk1 12000000 49152000] ∧
    (rpi_cirrus_hw_params { initialPriv with fll1_freq := 45158400 }
        (fun n => if n = 7 then 1 else 0) 0 48000 24).priv.fll1_freq =
      45158400 ∧
    (rpi_cirrus_hw_params { initialPriv with fll1_freq := 45158400 }
        (fun n => if n = 7 then 1 else 0) 0 48000 24).priv.fll1_freq ≠ 0 := by
  decide

/-- C8 (amended): when a clock-change operation fails partway (in
`hw_params`, the routing power-up handler, or the prepare transition),
the stored `fll1_freq` is left unchanged at its pre-transition value —
it is neither set to the new target nor reset to 0 to reflect a
partially cleared FLL. -/
theorem C8_fll1_frozen_on_failure (p : Priv) (o o2 o3 : Oracle) (s : Fin 2)
    (rate width : Nat) (prev : BiasLevel) :
    ((∃ i, i < (rpi_cirrus_hw_params p o s rate width).calls.length ∧
        o i ≠ 0) →
      (rpi_cirrus_hw_params p o s rate width).priv.fll1_freq = p.fll1_freq) ∧
    ((∃ i, i <
        (rpi_cirrus_spdif_rx_enable_event p o2 DapmEvent.postPmu).calls.length ∧
        o2 i ≠ 0) →
      (rpi_cirrus_spdif_rx_enable_event p o2
        DapmEvent.postPmu).priv.fll1_freq = p.fll1_freq) ∧
    ((∃ i, i <
        (rpi_cirrus_set_bias_level p o3 true BiasLevel.prepare
          prev).calls.length ∧ o3 i ≠ 0) →
      (rpi_cirrus_set_bias_level p o3 true BiasLevel.prepare
        prev).priv.fll1_freq = p.fll1_freq) := by
  refine ⟨?_, ?_, ?_⟩
  · rintro ⟨i, hi, hne⟩
    rcases hw_params_spec p o s rate width with hp | ⟨-, -, hall⟩
    · rw [hp]
    · exact absurd (hall i hi) hne
  · rintro ⟨i, hi, hne⟩
    rcases spdif_pmu_spec p o2 with ⟨hp, -⟩ | ⟨-, -, -, hall⟩
    · rw [hp]
    · exact absurd (hall i hi) hne
  · by_cases hpl : prev = BiasLevel.biasOn
    · rintro ⟨i, hi, -⟩
      simp [rpi_cirrus_set_bias_level, hpl] at hi
    · by_cases hs : p.sync_path_enable
      · rintro ⟨i, hi, -⟩
        simp [rpi_cirrus_set_bias_level, hpl, hs] at hi
      · rintro ⟨i, hi, hne⟩
        have hlen : (rpi_cirrus_set_bias_level p o3 true BiasLevel.prepare
            prev).calls.length = 1 := by
          by_cases h0 : o3 0 = 0 <;>
            simp [rpi_cirrus_set_bias_level, rpi_cirrus_set_fll, hpl, hs, h0]
        rw [hlen] at hi
        interval_cases i
        simp [rpi_cirrus_set_bias_level, rpi_cirrus_set_fll, hpl, hs, hne]

/-- Witness for C8: a failing first call in `hw_params` leaves
`fll1_freq` unchanged. -/
theorem C8_witness :
    (rpi_cirrus_hw_params initialPriv (fun _ => 1) 0 48000
        24).priv.fll1_freq = initialPriv.fll1_freq :=
  (C8_fll1_frozen_on_failure initialPriv (fun _ => 1) (fun _ => 1)
      (fun _ => 1) 0 48000 24 BiasLevel.standby).1 ⟨0, by decide, by decide⟩

/-- C9 counterexample: writing enumeration index 5 through the min-rate
put callback stores 5 verbatim — it is not clamped to the last valid
entry (index 2) and the stored index leaves the 0..2 bounds. -/
theorem C9_counterexample :
    (rpi_cirrus_min_rate_put initialPriv 5).1.min_rate_idx = 5 ∧
    ¬(rpi_cirrus_min_rate_put initialPriv 5).1.min_rate_idx ≤
      NUM_MIN_RATES - 1 := by decide

/-- C9 (amended): the min/max rate put callbacks return 1 exactly when
the stored index differs from the written value and 0 otherwise, and
store the written index verbatim — neither clamped nor rejected, so an
out-of-range write leaves the stored index out of bounds.  The clamp to
the last valid entry exists only in the info callbacks, which bound the
requested enumeration item when resolving its display name. -/
theorem C9_rate_put_semantics (p : Priv) (item : Nat) :
    ((rpi_cirrus_min_rate_put p item).2 = 1 ↔ p.min_rate_idx ≠ item) ∧
    ((rpi_cirrus_min_rate_put p item).2 = 0 ↔ p.min_rate_idx = item) ∧
    (rpi_cirrus_min_rate_put p item).1.min_rate_idx = item ∧
    (rpi_cirrus_min_rate_put p item).1.max_rate_idx = p.max_rate_idx ∧
    ((rpi_cirrus_max_rate_put p item).2 = 1 ↔ p.max_rate_idx ≠ item) ∧
    ((rpi_cirrus_max_rate_put p item).2 = 0 ↔ p.max_rate_idx = item) ∧
    (rpi_cirrus_max_rate_put p item).1.max_rate_idx = item ∧
    (rpi_cirrus_max_rate_put p item).1.min_rate_idx = p.min_rate_idx ∧
    rpi_cirrus_min_rate_info_item item ≤ NUM_MIN_RATES - 1 ∧
    rpi_cirrus_max_rate_info_item item ≤ NUM_MAX_RATES - 1 := by
  by_cases hm : p.min_rate_idx = item <;>
    by_cases hx : p.max_rate_idx = item <;>
      by_cases hi : 3 ≤ item <;>
        simp only [rpi_cirrus_min_rate_put, rpi_cirrus_max_rate_put,
          rpi_cirrus_min_rate_info_item, rpi_cirrus_max_rate_info_item,
          NUM_MIN_RATES, NUM_MAX_RATES, hm, hx, hi, if_pos, if_neg,
          ite_true, ite_false, ne_eq, not_true, not_false_iff] <;>
        by_cases hm' : p.min_rate_idx = item <;>
          by_cases hx' : p.max_rate_idx = item <;>
            simp_all <;> omega

/-- Witness for C9 at the initial state and written index 2. -/
theorem C9_witness :
    ((rpi_cirrus_min_rate_put initialPriv 2).2 = 1 ↔
      initialPriv.min_rate_idx ≠ 2) :=
  (C9_rate_put_semantics initialPriv 2).1

/-- The pre-FLL call count of `hw_params` is at least 3 for every rate. -/
theorem hwParamsPreLen_ge3 (rate : Nat) : 3 ≤ hwParamsPreLen rate := by
  unfold hwParamsPreLen
  split <;> omega

/-- Return-code dichotomy of `rpi_cirrus_hw_params`: when a call issued
before the FLL clear/re-enable block fails, execution stops there (the
failed call is the last one issued) and the function returns its error;
when every pre-FLL call succeeds the function returns 0, regardless of
whether the FLL block runs, fails, or is skipped — because the C `ret`
variable is never assigned from `rpi_cirrus_clear_flls` or
`rpi_cirrus_set_fll`. -/
theorem hw_params_ret_dichotomy (p : Priv) (o : Oracle) (s : Fin 2)
    (rate width : Nat) :
    ((∃ i, i < (rpi_cirrus_hw_params p o s rate width).calls.length ∧
        i < hwParamsPreLen rate ∧ o i ≠ 0) →
      (rpi_cirrus_hw_params p o s rate width).ret =
        o ((rpi_cirrus_hw_params p o s rate width).calls.length - 1) ∧
      (rpi_cirrus_hw_params p o s rate width).ret ≠ 0) ∧
    ((∀ i, i < hwParamsPreLen rate → o i = 0) →
      (rpi_cirrus_hw_params p o s rate width).ret = 0) := by
  have hge := hwParamsPreLen_ge3 rate
  by_cases h0 : o 0 = 0
  case neg =>
    constructor
    · intro _
      constructor <;> simp [rpi_cirrus_hw_params, h0]
    · intro hall
      exact absurd (hall 0 (by omega)) h0
  by_cases h1 : o 1 = 0
  case neg =>
    constructor
    · intro _
      constructor <;> simp [rpi_cirrus_hw_params, h0, h1]
    · intro hall
      exact absurd (hall 1 (by omega)) h1
  by_cases hr : 32000 ≤ rate
  · have hn : hwParamsPreLen rate = 5 := by simp [hwParamsPreLen, hr]
    by_cases h2 : o 2 = 0
    case neg =>
      constructor
      · intro _
        constructor <;>
          simp [rpi_cirrus_hw_params, rpi_cirrus_set_wm8804_pll,
            h0, h1, hr, h2]
      · intro hall
        exact absurd (hall 2 (by omega)) h2
    by_cases h3 : o 3 = 0
    case neg =>
      constructor
      · intro _
        constructor <;>
          simp [rpi_cirrus_hw_params, rpi_cirrus_set_wm8804_pll,
            h0, h1, hr, h2, h3]
      · intro hall
        exact absurd (hall 3 (by omega)) h3
    by_cases h4 : o 4 = 0
    case neg =>
      constructor
      · intro _
        constructor <;>
          simp [rpi_cirrus_hw_params, rpi_cirrus_set_wm8804_pll,
            h0, h1, hr, h2, h3, h4]
      · intro hall
        exact absurd (hall 4 (by omega)) h4
    -- every pre-FLL call succeeds: all remaining paths return 0
    have hret : (rpi_cirrus_hw_params p o s rate width).ret = 0 := by
      by_cases hg : 0 < p.fll1_freq ∧ p.fll1_freq ≠ (calc_sysclk rate : Int)
      · by_cases h5 : o 5 = 0
        case neg =>
          simp [rpi_cirrus_hw_params, rpi_cirrus_set_wm8804_pll,
            rpi_cirrus_clear_flls, h0, h1, hr, h2, h3, h4, hg, h5]
        by_cases h6 : o 6 = 0
        case neg =>
          simp [rpi_cirrus_hw_params, rpi_cirrus_set_wm8804_pll,
            rpi_cirrus_clear_flls, h0, h1, hr, h2, h3, h4, hg, h5, h6]
        by_cases h7 : o 7 = 0 <;>
          simp [rpi_cirrus_hw_params, rpi_cirrus_set_wm8804_pll,
            rpi_cirrus_clear_flls, rpi_cirrus_set_fll,
            h0, h1, hr, h2, h3, h4, hg, h5, h6, h7]
      · simp [rpi_cirrus_hw_params, rpi_cirrus_set_wm8804_pll,
          h0, h1, hr, h2, h3, h4, hg]
    constructor
    · rintro ⟨i, -, hin, hne⟩
      rw [hn] at hin
      interval_cases i <;> simp_all
    · intro _
      exact hret
  · have hn : hwParamsPreLen rate = 3 := by simp [hwParamsPreLen, hr]
    by_cases h2 : o 2 = 0
    case neg =>
      constructor
      · intro _
        constructor <;> simp [rpi_cirrus_hw_params, h0, h1, hr, h2]
      · intro hall
        exact absurd (hall 2 (by omega)) h2
    have hret : (rpi_cirrus_hw_params p o s rate width).ret = 0 := by
      by_cases hg : 0 < p.fll1_freq ∧ p.fll1_freq ≠ (calc_sysclk rate : Int)
      · by_cases h3 : o 3 = 0
        case neg =>
          simp [rpi_cirrus_hw_params, rpi_cirrus_clear_flls,
            h0, h1, hr, h2, hg, h3]
        by_cases h4 : o 4 = 0
        case neg =>
          simp [rpi_cirrus_hw_params, rpi_cirrus_clear_flls,
            h0, h1, hr, h2, hg, h3, h4]
        by_cases h5 : o 5 = 0 <;>
          simp [rpi_cirrus_hw_params, rpi_cirrus_clear_flls,
            rpi_cirrus_set_fll, h0, h1, hr, h2, hg, h3, h4, h5]
      · simp [rpi_cirrus_hw_params, h0, h1, hr, h2, hg]
    constructor
    · rintro ⟨i, -, hin, hne⟩
      rw [hn] at hin
      interval_cases i <;> simp_all
    · intro _
      exact hret

/-- C10 counterexample: stale local FLL at 45158400, `hw_params` at
48000 Hz where the first `clear()` sub-call (hardware call index 5)
fails: the state is unchanged as claimed, but `hw_params` returns 0
rather than the error of the failed call. -/
theorem C10_counterexample :
    (((fun n => if n = 5 then 1 else 0) : Oracle) 5 ≠ 0) ∧
    (rpi_cirrus_hw_params { initialPriv with fll1_freq := 45158400 }
        (fun n => if n = 5 then 1 else 0) 0 48000 24).calls.length = 7 ∧
    (rpi_cirrus_hw_params { initialPriv with fll1_freq := 45158400 }
        (fun n => if n = 5 then 1 else 0) 0 48000 24).ret = 0 ∧
    (rpi_cirrus_hw_params { initialPriv with fll1_freq := 45158400 }
        (fun n => if n = 5 then 1 else 0) 0 48000 24).priv =
      { initialPriv with fll1_freq := 45158400 } := by
  decide

/-- C10 (amended): if any hardware call issued by `hw_params` fails,
`card_rate` and `params_set` are unchanged from entry.  `hw_params`
returns the error of the failed call when the failure is among the calls
issued before the FLL clear/re-enable block (bclk ratio, tdm slot, the
WM8804 PLL pair, sysclk — the failed call being the last one issued),
and returns 0 whenever all of those pre-FLL calls succeed, in particular
when the failure is inside the FLL clear/re-enable block.  If any FLL
call of the routing power-up handler fails, `sync_path_enable` and
`fll1_freq` are unchanged and the handler returns the error. -/
theorem C10_state_atomicity (p : Priv) (o o2 : Oracle) (s : Fin 2)
    (rate width : Nat) :
    ((∃ i, i < (rpi_cirrus_hw_params p o s rate width).calls.length ∧
        o i ≠ 0) →
      (rpi_cirrus_hw_params p o s rate width).priv.card_rate = p.card_rate ∧
      (rpi_cirrus_hw_params p o s rate width).priv.params_set =
        p.params_set) ∧
    ((∃ i, i < (rpi_cirrus_hw_params p o s rate width).calls.length ∧
        i < hwParamsPreLen rate ∧ o i ≠ 0) →
      (rpi_cirrus_hw_params p o s rate width).ret =
        o ((rpi_cirrus_hw_params p o s rate width).calls.length - 1) ∧
      (rpi_cirrus_hw_params p o s rate width).ret ≠ 0) ∧
    ((∀ i, i < hwParamsPreLen rate → o i = 0) →
      (rpi_cirrus_hw_params p o s rate width).ret = 0) ∧
    ((∃ i, i <
        (rpi_cirrus_spdif_rx_enable_event p o2 DapmEvent.postPmu).calls.length ∧
        o2 i ≠ 0) →
      (rpi_cirrus_spdif_rx_enable_event p o2
          DapmEvent.postPmu).priv.sync_path_enable = p.sync_path_enable ∧
      (rpi_cirrus_spdif_rx_enable_event p o2
          DapmEvent.postPmu).priv.fll1_freq = p.fll1_freq ∧
      (rpi_cirrus_spdif_rx_enable_event p o2 DapmEvent.postPmu).ret ≠ 0) := by
  refine ⟨?_, (hw_params_ret_dichotomy p o s rate width).1,
    (hw_params_ret_dichotomy p o s rate width).2, ?_⟩
  · rintro ⟨i, hi, hne⟩
    rcases hw_params_spec p o s rate width with hp | ⟨-, -, hall⟩
    · exact ⟨by rw [hp], by rw [hp]⟩
    · exact absurd (hall i hi) hne
  · rintro ⟨i, hi, hne⟩
    rcases spdif_pmu_spec p o2 with ⟨hp, hr⟩ | ⟨-, -, -, hall⟩
    · exact ⟨by rw [hp], by rw [hp], hr⟩
    · exact absurd (hall i hi) hne

/-- Witness for C10: a failing first call in `hw_params` leaves
`card_rate` and `params_set` unchanged, and the function returns that
call's error code 1. -/
theorem C10_witness :
    ((rpi_cirrus_hw_params initialPriv (fun _ => 1) 0 48000
        24).priv.card_rate = initialPriv.card_rate ∧
     (rpi_cirrus_hw_params initialPriv (fun _ => 1) 0 48000
        24).priv.params_set = initialPriv.params_set) ∧
    ((rpi_cirrus_hw_params initialPriv (fun _ => 1) 0 48000 24).ret = 1 ∧
     (rpi_cirrus_hw_params initialPriv (fun _ => 1) 0 48000 24).ret ≠ 0) :=
  ⟨(C10_state_atomicity initialPriv (fun _ => 1) (fun _ => 1) 0 48000 24).1
      ⟨0, by decide, by decide⟩,
   (C10_state_atomicity initialPriv (fun _ => 1) (fun _ => 1) 0 48000
        24).2.1 ⟨0, by decide, by decide, by decide⟩⟩

end RpiCirrus
